import Mathlib

/-!
Verification of the Table Combiner of metascript_geofetch.py.

The Python script walks a directory tree, loads every CSV file whose name
matches a glob pattern into a pandas DataFrame, reformats the
sample_contact_name column, concatenates all frames on the union of their
columns, reindexes to a fixed column-ordering policy, and finally applies up
to three optional row filters before writing the result.

Shallow embedding conventions used below:

* A Python scalar cell is a `PyVal`: a string, an integer, or the float NaN
  that pandas uses for missing data.
* A pandas DataFrame is a `DataFrame`: a list of column labels plus a list of
  rows, each row a list of cells aligned positionally with the labels.
* File discovery and loading are abstracted as a `List (Option DataFrame)`
  in traversal order; `none` stands for a file whose read raised an
  exception (malformed CSV, encoding error, I/O error) and was skipped by
  the except branch of the source.
* Python exceptions that the source does not catch are modelled with
  `Except String`; the error payload names the missing column label of the
  KeyError.
* Python string operations (split, strip, lower) are re-implemented on
  `List Char` so that every definition evaluates inside the kernel; they
  agree with CPython on the ASCII data the script handles.
* pandas `Series.str.contains(pat, case=False, na=False)` compiles `pat` as
  a regular expression (default `regex=True`).  The model `reSearch` covers
  the regex fragment actually needed here: literal characters plus the dot
  metacharacter (which in Python matches any character except a newline).
  Patterns using other metacharacters are outside the modelled fragment.
-/

/-- A Python scalar value as it occurs in a loaded CSV cell: a string, an
integer, or the float NaN that pandas uses for null / missing data. -/
inductive PyVal where
  | str (s : String)
  | int (n : Int)
  | nan
  deriving DecidableEq, Repr

/-- True exactly on string values; models Python isinstance(x, str). -/
def PyVal.isStr : PyVal → Bool
  | .str _ => true
  | _ => false

/-- A pandas DataFrame: column labels plus rows of cells, each row aligned
positionally with the labels. -/
structure DataFrame where
  cols : List String
  rows : List (List PyVal)
  deriving DecidableEq, Repr

/-- The empty DataFrame `pd.DataFrame()` that initializes `all_data`. -/
def DataFrame.empty : DataFrame := ⟨[], []⟩

/-- Lowercase one character; models Python str.lower on the ASCII range
handled by the script. -/
def pyLowerChar (c : Char) : Char :=
  match c with
  | 'A' => 'a' | 'B' => 'b' | 'C' => 'c' | 'D' => 'd' | 'E' => 'e'
  | 'F' => 'f' | 'G' => 'g' | 'H' => 'h' | 'I' => 'i' | 'J' => 'j'
  | 'K' => 'k' | 'L' => 'l' | 'M' => 'm' | 'N' => 'n' | 'O' => 'o'
  | 'P' => 'p' | 'Q' => 'q' | 'R' => 'r' | 'S' => 's' | 'T' => 't'
  | 'U' => 'u' | 'V' => 'v' | 'W' => 'w' | 'X' => 'x' | 'Y' => 'y'
  | 'Z' => 'z' | c => c

/-- Lowercase a whole string; models Python str.lower for ASCII data. -/
def pyLower (s : String) : String :=
  String.mk (s.data.map pyLowerChar)

/-- Strip leading and trailing whitespace; models Python str.strip(). -/
def pyStrip (s : String) : String :=
  String.mk
    (((s.data.dropWhile Char.isWhitespace).reverse.dropWhile
        Char.isWhitespace).reverse)

/-- Worker for `pySplit`: scans the character list left to right, splitting
at every non-overlapping occurrence of the separator, exactly as Python
str.split does for a non-empty separator.  The fuel argument is only there
to make the recursion structural; `fuel = cs.length + 1` always suffices. -/
def pySplitGo (sep : List Char) : Nat → List Char → List Char → List String
  | 0, cs, acc => [String.mk (acc.reverse ++ cs)]
  | fuel + 1, cs, acc =>
    if sep.isPrefixOf cs then
      String.mk acc.reverse :: pySplitGo sep fuel (cs.drop sep.length) []
    else
      match cs with
      | [] => [String.mk acc.reverse]
      | c :: rest => pySplitGo sep fuel rest (c :: acc)

/-- Python str.split(sep) for a non-empty separator sep: splits at each
non-overlapping occurrence of sep scanning left to right, keeping empty
pieces, and returns the one-element list for an absent separator.  (Python
raises ValueError on an empty separator; the script only ever passes the
two-character separator ",,", and we return the singleton in that case.) -/
def pySplit (sep s : String) : List String :=
  if sep.data.isEmpty then [s]
  else pySplitGo sep.data (s.data.length + 1) s.data []

/-- format_contact_name from metascript_geofetch.py, lines 76 to 94:
a non-string or empty value is returned unchanged; otherwise the value is
split on the double comma, and if that yields at least two parts whose
first and last members are non-empty after stripping, the result is the
stripped last part followed by the first character of the stripped first
part; in every other case the original value is returned. -/
def format_contact_name (name : PyVal) : PyVal :=
  match name with
  | .str s =>
    if s = "" then .str s
    else
      let parts := pySplit ",," s
      if parts.length ≥ 2 then
        let first_name := pyStrip (parts.headD "")
        let last_name := pyStrip (parts.getLastD "")
        if first_name ≠ "" ∧ last_name ≠ "" then
          .str (last_name.push (first_name.data.headD ' '))
        else .str s
      else .str s
  | v => v

/-- Index of the first column with the given label, or `none`; models the
label lookup pandas performs for `df[label]` on a unique column index. -/
def colIdx : List String → String → Option Nat
  | [], _ => none
  | c :: rest, t => if c = t then some 0 else (colIdx rest t).map (· + 1)

/-- The value a row holds in a labelled column, NaN when the label is absent
or the row is too short; this is the alignment pandas performs when it
reindexes rows onto a column list. -/
def valueAt (cols : List String) (row : List PyVal) (c : String) : PyVal :=
  match colIdx cols c with
  | some i => row.getD i .nan
  | none => .nan

/-- Project a row from its source column list onto a target column list,
filling columns absent from the source with NaN. -/
def projectRow (src : List String) (row : List PyVal) (tgt : List String) :
    List PyVal :=
  tgt.map (valueAt src row)

/-- pd.concat([a, b], ignore_index=True, sort=False): the result columns are
the columns of `a` followed by the columns of `b` not already present, in
first-encountered order, and every row is aligned onto that union with NaN
for the columns its source frame lacked. -/
def DataFrame.concat (a b : DataFrame) : DataFrame :=
  let cols := a.cols ++ b.cols.filter (fun c => !(a.cols.contains c))
  ⟨cols,
    a.rows.map (fun r => projectRow a.cols r cols) ++
      b.rows.map (fun r => projectRow b.cols r cols)⟩

/-- df.reindex(columns=order): the frame whose columns are exactly `order`,
each row aligned onto it; a label present in the source keeps its values, a
label absent from the source yields a NaN column. -/
def DataFrame.reindex (df : DataFrame) (order : List String) : DataFrame :=
  ⟨order, df.rows.map (fun r => projectRow df.cols r order)⟩

/-- The per-file body of the combine loop, lines 28 to 40 of the source:
if some column label lowercases to sample_contact_name, the script applies
`format_contact_name` to the column named exactly sample_contact_name.
When the detection fires on a differently-cased label and the exact label
is missing, the read of df[sample_contact_name] raises a KeyError that the
surrounding except catches, so the whole file is skipped: that is the
`none` result. -/
def processFile (df : DataFrame) : Option DataFrame :=
  if df.cols.any (fun c => pyLower c = "sample_contact_name") then
    match colIdx df.cols "sample_contact_name" with
    | some i =>
      some ⟨df.cols,
        df.rows.map (fun r => r.set i (format_contact_name (r.getD i .nan)))⟩
    | none => none
  else some df

/-- The accumulation loop of combine_csvs_by_columns: each successfully read
file is contact-formatted and concatenated onto the accumulator, and the
files_found flag is set; a file whose read or formatting raised is skipped. -/
def combineLoop : List (Option DataFrame) → DataFrame → Bool → DataFrame × Bool
  | [], acc, found => (acc, found)
  | none :: rest, acc, found => combineLoop rest acc found
  | some df :: rest, acc, found =>
    match processFile df with
    | none => combineLoop rest acc found
    | some df2 => combineLoop rest (acc.concat df2) true

/-- The fixed leading-priority column list of the source, line 47. -/
def first_columns_set : List String :=
  ["sample_geo_accession", "development_stage", "genotype", "treatment",
   "sample_library_strategy", "antibody", "sample_contact_name",
   "sample_submission_date", "sample_name", "big_key"]

/-- The fixed trailing column list of the source, line 55. -/
def middle_columns_set : List String :=
  ["sample_source_name_ch1", "organism"]

/-- The column-ordering policy, lines 46 to 63 of the source: the priority
columns actually present, then the two literal separator columns, then the
remaining columns in first-encountered order, then the trailing columns
actually present. -/
def columnOrder (cols : List String) : List String :=
  (first_columns_set.filter (fun c => cols.contains c)) ++
    ["separator_1", "separator_2"] ++
    (cols.filter (fun c =>
      !(first_columns_set.contains c) && !(middle_columns_set.contains c))) ++
    (middle_columns_set.filter (fun c => cols.contains c))

/-- The accumulated all_data frame and the files_found flag after the walk. -/
def allData (files : List (Option DataFrame)) : DataFrame × Bool :=
  combineLoop files DataFrame.empty false

/-- combine_csvs_by_columns from metascript_geofetch.py, lines 8 to 75,
abstracting discovery and loading into the `files` list: the loaded frames
are accumulated, the accumulator is reindexed onto the column-ordering
policy, and the function returns the frame when an output path was given or
at least one file was appended, and the Python None sentinel (here `none`)
otherwise.  Writing the CSV itself is an I/O effect outside the model. -/
def combine_csvs_by_columns (files : List (Option DataFrame))
    (output_csv : Option String) : Option DataFrame :=
  let p := allData files
  let result := p.1.reindex (columnOrder p.1.cols)
  match output_csv with
  | some _ => some result
  | none => if p.2 then some result else none

/-- Does the pattern match at the head of the text?  Model of Python re
matching for patterns built from literal characters and the dot
metacharacter: a dot matches any character except a newline, a literal
matches itself. -/
def reMatchHere : List Char → List Char → Bool
  | [], _ => true
  | _ :: _, [] => false
  | p :: ps, c :: cs =>
    (if p = '.' then c != '\n' else p == c) && reMatchHere ps cs

/-- Python re.search for the literal-and-dot regex fragment: the pattern
matches at some start position of the text. -/
def reSearch (pat hay : List Char) : Bool :=
  hay.tails.any (fun t => reMatchHere pat t)

/-- One cell of a filter column tested by
Series.str.contains(pat, case=False, na=False): only a string cell can
match (na=False sends NaN to False, and the .str accessor yields NaN on
non-string elements), and matching is a case-insensitive regex search.
Modelled for the literal-and-dot regex fragment. -/
def cellMatches (pat : String) (v : PyVal) : Bool :=
  match v with
  | .str s => reSearch (pyLower pat).data (pyLower s).data
  | _ => false

/-- One filter statement, e.g. line 207 of the source:
filtered_df = filtered_df[filtered_df[col].str.contains(pat, na=False,
case=False)].  Reading filtered_df[col] raises a KeyError when the label is
absent; otherwise the rows whose cell matches survive, in order, with the
column list unchanged. -/
def filterByCol (df : DataFrame) (c pat : String) : Except String DataFrame :=
  match colIdx df.cols c with
  | none => .error c
  | some _ =>
    .ok ⟨df.cols, df.rows.filter (fun r => cellMatches pat (valueAt df.cols r c))⟩

/-- The filter block of the script, lines 202 to 215: a copy of the combined
frame is filtered successively by the organism, assay and target criteria;
a criterion that is the empty string is skipped entirely (Python falsiness
of the stripped argument).  The target line lowers both sides before the
contains test, which coincides with case-insensitive matching.  An
uncaught KeyError aborts the block; that is the `.error` result. -/
def applyFilters (df : DataFrame) (o a t : String) : Except String DataFrame :=
  match (if o = "" then Except.ok df else filterByCol df "organism" o) with
  | .error e => .error e
  | .ok d1 =>
    match (if a = "" then Except.ok d1
           else filterByCol d1 "sample_library_strategy" a) with
    | .error e => .error e
    | .ok d2 =>
      if t = "" then .ok d2 else filterByCol d2 "sample_name" t

/-- The conjunction of the three per-row criteria, with an empty criterion a
no-op; the formula the surviving rows of `applyFilters` satisfy. -/
def rowPasses (cols : List String) (o a t : String) (r : List PyVal) : Bool :=
  (o == "" || cellMatches o (valueAt cols r "organism")) &&
    (a == "" || cellMatches a (valueAt cols r "sample_library_strategy")) &&
    (t == "" || cellMatches t (valueAt cols r "sample_name"))

/-- Case-insensitive plain substring containment, written from the words of
the specification (a case-insensitive substring containment test) to be
compared against the behaviour of the code. -/
def ciSubstrTest (hay needle : String) : Bool :=
  (pyLower hay).data.tails.any (fun t => (pyLower needle).data.isPrefixOf t)

/-- A cell tested the way the specification words it: a string cell matches
when it contains the criterion as a case-insensitive substring, a null or
non-string cell never matches.  Written from the spec, to be compared
against `cellMatches`. -/
def specCellMatches (needle : String) (v : PyVal) : Bool :=
  match v with
  | .str s => ciSubstrTest s needle
  | _ => false

/-- The Post-Combination Filter as the specification words it: each supplied
non-empty criterion keeps the rows whose named column contains the
criterion as a case-insensitive substring, criteria conjoined.  Written
from the spec, not the source, to be compared against `applyFilters`. -/
def substringFilterSpec (df : DataFrame) (o a t : String) : DataFrame :=
  ⟨df.cols, df.rows.filter (fun r =>
    (o == "" || specCellMatches o (valueAt df.cols r "organism")) &&
    (a == "" || specCellMatches a (valueAt df.cols r "sample_library_strategy")) &&
    (t == "" || specCellMatches t (valueAt df.cols r "sample_name")))⟩

/-! ## Helper lemmas -/

/-- Skipping the files whose load failed does not change the accumulation:
the loop over the full list equals the loop over the successfully loaded
frames only. -/
theorem combineLoop_filterMap (files : List (Option DataFrame)) :
    ∀ (acc : DataFrame) (found : Bool),
      combineLoop files acc found =
        combineLoop ((files.filterMap id).map some) acc found := by
  induction files with
  | nil => intro acc found; rfl
  | cons f rest ih =>
    intro acc found
    cases f with
    | none => simpa [combineLoop] using ih acc found
    | some df =>
      simp only [List.filterMap_cons, id, List.map_cons, combineLoop]
      cases processFile df <;> simp [combineLoop, ih]

/-- A label absent from the column list has no index. -/
theorem colIdx_eq_none (cols : List String) (c : String) :
    colIdx cols c = none ↔ c ∉ cols := by
  induction cols with
  | nil => simp [colIdx]
  | cons c0 rest ih =>
    by_cases hc : c0 = c
    · subst hc; simp [colIdx]
    · simp [colIdx, hc, ih]
      exact fun _ h => hc h.symm

/-- The index found for a label points at that label. -/
theorem colIdx_some (cols : List String) (c : String) :
    ∀ i, colIdx cols c = some i → cols[i]? = some c := by
  induction cols with
  | nil => intro i h; simp [colIdx] at h
  | cons c0 rest ih =>
    intro i h
    by_cases hc : c0 = c
    · subst hc
      simp [colIdx] at h
      subst h; simp
    · simp [colIdx, hc] at h
      obtain ⟨j, hj, hji⟩ := h
      subst hji
      simpa using ih j hj

/-- Reading a row at a label whose lookup found index i reads position i. -/
theorem valueAt_of_colIdx (cols : List String) (row : List PyVal) (c : String)
    (i : Nat) (h : colIdx cols c = some i) :
    valueAt cols row c = row.getD i .nan := by
  unfold valueAt; rw [h]

/-- Reading a projected row at a label of the target column list gives the
value the source row held at that label. -/
theorem valueAt_projectRow (src : List String) (row : List PyVal)
    (tgt : List String) (c : String) (h : c ∈ tgt) :
    valueAt tgt (projectRow src row tgt) c = valueAt src row c := by
  cases hx : colIdx tgt c with
  | none => exact absurd ((colIdx_eq_none tgt c).mp hx) (by simp [h])
  | some i =>
    have hg : tgt[i]? = some c := colIdx_some tgt c i hx
    rw [valueAt_of_colIdx tgt _ c i hx]
    unfold projectRow
    rw [List.getD_eq_getElem?_getD, List.getElem?_map, hg]
    rfl

/-- Characterization of one executed filter statement: the columns are kept
and exactly the rows whose cell matches survive. -/
theorem filterByCol_ok (df : DataFrame) (c pat : String) (d2 : DataFrame)
    (h : filterByCol df c pat = .ok d2) :
    d2.cols = df.cols ∧
      d2.rows = df.rows.filter (fun r => cellMatches pat (valueAt df.cols r c)) := by
  unfold filterByCol at h
  split at h
  · cases h
  · cases h; exact ⟨rfl, rfl⟩

/-- Characterization of one optionally-skipped filter step: an empty
criterion keeps everything, a non-empty one keeps the matching rows. -/
theorem stepFilter_ok (df : DataFrame) (c pat : String) (d2 : DataFrame)
    (h : (if pat = "" then Except.ok df else filterByCol df c pat) = .ok d2) :
    d2.cols = df.cols ∧
      d2.rows = df.rows.filter
        (fun r => pat == "" || cellMatches pat (valueAt df.cols r c)) := by
  by_cases hp : pat = ""
  · rw [if_pos hp] at h
    cases h
    refine ⟨rfl, ?_⟩
    simp [hp]
  · rw [if_neg hp] at h
    obtain ⟨h1, h2⟩ := filterByCol_ok df c pat d2 h
    refine ⟨h1, ?_⟩
    rw [h2]
    apply List.filter_congr
    intro x _
    simp [beq_eq_false_iff_ne, hp]

/-- Composing three successive filters is one filter by the conjunction. -/
theorem filter_three (l : List (List PyVal)) (p1 p2 p3 : List PyVal → Bool) :
    ((l.filter p1).filter p2).filter p3 =
      l.filter (fun r => p1 r && p2 r && p3 r) := by
  rw [List.filter_filter, List.filter_filter]
  apply List.filter_congr
  intro x _
  cases p1 x <;> cases p2 x <;> cases p3 x <;> rfl

/-- Characterization of the whole filter block when it runs to completion:
the columns are kept and exactly the rows passing the conjunction of the
supplied criteria survive. -/
theorem applyFilters_ok (df : DataFrame) (o a t : String) (d3 : DataFrame)
    (h : applyFilters df o a t = .ok d3) :
    d3.cols = df.cols ∧ d3.rows = df.rows.filter (rowPasses df.cols o a t) := by
  unfold applyFilters at h
  cases h1 : (if o = "" then Except.ok df else filterByCol df "organism" o) with
  | error e => rw [h1] at h; cases h
  | ok d1 =>
    rw [h1] at h
    dsimp only at h
    cases h2 : (if a = "" then Except.ok d1
        else filterByCol d1 "sample_library_strategy" a) with
    | error e => rw [h2] at h; cases h
    | ok d2 =>
      rw [h2] at h
      dsimp only at h
      obtain ⟨hc1, hr1⟩ := stepFilter_ok df "organism" o d1 h1
      obtain ⟨hc2, hr2⟩ := stepFilter_ok d1 "sample_library_strategy" a d2 h2
      obtain ⟨hc3, hr3⟩ := stepFilter_ok d2 "sample_name" t d3 h
      refine ⟨by rw [hc3, hc2, hc1], ?_⟩
      rw [hr3, hr2, hr1, hc2, hc1, filter_three]
      rfl

/-- A character other than the dot stays other than the dot under
lowercasing. -/
theorem pyLowerChar_ne_dot (c : Char) (hc : c ≠ '.') : pyLowerChar c ≠ '.' := by
  unfold pyLowerChar
  split <;> first | decide | exact hc

/-- On a dot-free pattern the regex head match is the plain list match. -/
theorem reMatchHere_eq_isPrefixOf (pat : List Char) (hd : ∀ ch ∈ pat, ch ≠ '.') :
    ∀ hay : List Char, reMatchHere pat hay = pat.isPrefixOf hay := by
  induction pat with
  | nil => intro hay; cases hay <;> rfl
  | cons p ps ih =>
    intro hay
    cases hay with
    | nil => rfl
    | cons c cs =>
      have hp : p ≠ '.' := hd p (by simp)
      have ihx := ih (fun ch hch => hd ch (by simp [hch])) cs
      simp only [reMatchHere, List.isPrefixOf, if_neg hp, ihx]

/-- Congruence for Bool-valued any. -/
theorem any_congr {α : Type} (l : List α) (f g : α → Bool)
    (h : ∀ x ∈ l, f x = g x) : l.any f = l.any g := by
  induction l with
  | nil => rfl
  | cons x rest ih =>
    simp only [List.any_cons, h x (by simp),
      ih (fun y hy => h y (by simp [hy]))]

/-- When the combiner returns a frame, that frame is the accumulated data
reindexed onto the column-ordering policy. -/
theorem combine_eq_reindex (files : List (Option DataFrame))
    (out : Option String) (df : DataFrame)
    (h : combine_csvs_by_columns files out = some df) :
    df = (allData files).1.reindex (columnOrder (allData files).1.cols) := by
  unfold combine_csvs_by_columns at h
  cases out with
  | some s =>
    dsimp only at h
    exact (Option.some.inj h).symm
  | none =>
    dsimp only at h
    by_cases hf : (allData files).2
    · rw [if_pos hf] at h
      exact (Option.some.inj h).symm
    · rw [if_neg hf] at h
      cases h

/-- Filtering a duplicate-free list by a predicate that holds exactly at one
of its members yields the singleton of that member. -/
theorem filter_eq_singleton (l : List String) (a : String) (p : String → Bool)
    (hnd : l.Nodup) (hmem : a ∈ l)
    (hp : ∀ x ∈ l, p x = true ↔ x = a) : l.filter p = [a] := by
  induction l with
  | nil => cases hmem
  | cons b rest ih =>
    obtain ⟨hb, hrest⟩ := List.nodup_cons.mp hnd
    by_cases hba : b = a
    · subst hba
      have hpb : p b = true := (hp b (by simp)).mpr rfl
      have hnil : rest.filter p = [] := by
        rw [List.filter_eq_nil_iff]
        intro x hx hpx
        exact hb (((hp x (by simp [hx])).mp hpx) ▸ hx)
      simp [List.filter_cons, hpb, hnil]
    · have hmem2 : a ∈ rest := by
        rcases List.mem_cons.mp hmem with h | h
        · exact absurd h.symm hba
        · exact h
      have hpb : p b = false := by
        cases h : p b
        · rfl
        · exact absurd ((hp b (by simp)).mp h) hba
      simpa [List.filter_cons, hpb] using
        ih hrest hmem2 (fun x hx => hp x (by simp [hx]))

/-- The column-ordering policy evaluated on any duplicate-free column list
whose members are exactly sample_name, organism, custom_x and
sample_geo_accession. -/
theorem columnOrder_of_four (L : List String) (hnd : L.Nodup)
    (hm : ∀ c : String, c ∈ L ↔
      c ∈ (["sample_name", "organism", "custom_x",
            "sample_geo_accession"] : List String)) :
    columnOrder L = ["sample_geo_accession", "sample_name", "separator_1",
      "separator_2", "custom_x", "organism"] := by
  have hT : L.contains "sample_geo_accession" = true :=
    List.elem_eq_true_of_mem ((hm _).mpr (by decide))
  have hN : L.contains "sample_name" = true :=
    List.elem_eq_true_of_mem ((hm _).mpr (by decide))
  have hO : L.contains "organism" = true :=
    List.elem_eq_true_of_mem ((hm _).mpr (by decide))
  have hF : ∀ x : String,
      x ∉ (["sample_name", "organism", "custom_x",
            "sample_geo_accession"] : List String) → L.contains x = false := by
    intro x hx
    cases h : L.contains x
    · rfl
    · exact absurd ((hm x).mp (List.mem_of_elem_eq_true h)) hx
  have hrem : L.filter (fun c =>
      !(first_columns_set.contains c) && !(middle_columns_set.contains c)) =
      ["custom_x"] := by
    apply filter_eq_singleton L "custom_x" _ hnd ((hm _).mpr (by decide))
    intro x hx
    have hx4 := (hm x).mp hx
    simp only [List.mem_cons, List.not_mem_nil, or_false] at hx4
    rcases hx4 with rfl | rfl | rfl | rfl <;> decide
  unfold columnOrder
  rw [hrem]
  have h1 : first_columns_set.filter (fun c => L.contains c) =
      ["sample_geo_accession", "sample_name"] := by
    simp only [first_columns_set, List.filter_cons, List.filter_nil, hT, hN,
      hF "development_stage" (by decide), hF "genotype" (by decide),
      hF "treatment" (by decide), hF "sample_library_strategy" (by decide),
      hF "antibody" (by decide), hF "sample_contact_name" (by decide),
      hF "sample_submission_date" (by decide), hF "big_key" (by decide)]
    rfl
  have h2 : middle_columns_set.filter (fun c => L.contains c) =
      ["organism"] := by
    simp only [middle_columns_set, List.filter_cons, List.filter_nil, hO,
      hF "sample_source_name_ch1" (by decide)]
    rfl
  rw [h1, h2]
  rfl

/-! ## Claims -/

/-- Claim C1 counterexample.  The claim asserts that the normalizer sends
"Doe,,Jane" to "DoeJ" and "Smith,,,John" to "SmithJ".  The code splits the
input as first-part "Doe" and last-part "Jane" and returns the last part
followed by the first initial, giving "JaneD"; and splitting
"Smith,,,John" on the double comma leaves the stray comma on the last
part, giving ",JohnS". -/
theorem claim_C1_counterexample :
    format_contact_name (PyVal.str "Doe,,Jane") ≠ PyVal.str "DoeJ" ∧
    format_contact_name (PyVal.str "Smith,,,John") ≠ PyVal.str "SmithJ" := by
  decide

/-- Claim C1 amended.  The Contact-Name Normalizer returns:
normalize("Doe,,Jane") = "JaneD" (the input is read as first,,last and the
result is the last part followed by the first initial);
normalize("Smith,,,John") = ",JohnS" (the split on the double comma keeps
the stray comma on the last part, so extra separators do not collapse
cleanly); normalize("NoSeparator") = "NoSeparator"; normalize(42) = 42;
normalize("") = "". -/
theorem claim_C1_amended :
    format_contact_name (PyVal.str "Doe,,Jane") = PyVal.str "JaneD" ∧
    format_contact_name (PyVal.str "Smith,,,John") = PyVal.str ",JohnS" ∧
    format_contact_name (PyVal.str "NoSeparator") = PyVal.str "NoSeparator" ∧
    format_contact_name (PyVal.int 42) = PyVal.int 42 ∧
    format_contact_name (PyVal.str "") = PyVal.str "" := by
  decide

/-- Claim C2 counterexample.  The claim asserts that combining zero matching
files yields the explicit no-data sentinel for every invocation, including
when an output path is given.  With an output path the function instead
returns (and writes) a zero-row frame whose columns are the two separator
placeholders, never the sentinel. -/
theorem claim_C2_counterexample :
    combine_csvs_by_columns [] (some "combined_raw_data.csv") ≠ none := by
  decide

/-- Claim C2 amended.  Combining zero matching files yields the None
sentinel only when no output path is given; when an output path is given
(as the main flow of the script always does) the result is a zero-row
frame whose columns are exactly the two separator placeholders, so callers
must additionally test for emptiness, as the script indeed does. -/
theorem claim_C2_amended :
    combine_csvs_by_columns [] none = none ∧
    ∀ out : String,
      combine_csvs_by_columns [] (some out) =
        some ⟨["separator_1", "separator_2"], []⟩ := by
  exact ⟨rfl, fun _ => rfl⟩

/-- Claim C3.  For every input to the Contact-Name Normalizer: a string
splitting on the double comma into a first and a last part both non-empty
after stripping is sent to the stripped last part followed by the first
character of the stripped first part; a non-string value, the empty
string, a string without the double-comma separator, and a string either
of whose two parts strips to empty are all returned unchanged (and the
function is total, so no error is ever raised). -/
theorem claim_C3 :
    (∀ s fst lst : String, pySplit ",," s = [fst, lst] →
        pyStrip fst ≠ "" → pyStrip lst ≠ "" →
        format_contact_name (PyVal.str s) =
          PyVal.str ((pyStrip lst).push ((pyStrip fst).data.headD ' '))) ∧
    (∀ v : PyVal, v.isStr = false → format_contact_name v = v) ∧
    (format_contact_name (PyVal.str "") = PyVal.str "") ∧
    (∀ s : String, (pySplit ",," s).length < 2 →
        format_contact_name (PyVal.str s) = PyVal.str s) ∧
    (∀ s fst lst : String, pySplit ",," s = [fst, lst] →
        (pyStrip fst = "" ∨ pyStrip lst = "") →
        format_contact_name (PyVal.str s) = PyVal.str s) := by
  refine ⟨?_, ?_, ?_, ?_, ?_⟩
  · intro s fst lst h hf hl
    rcases eq_or_ne s "" with hs | hs
    · have he : pySplit ",," s = [""] := by rw [hs]; decide
      rw [he] at h; simp at h
    · simp [format_contact_name, hs, h, hf, hl]
  · intro v hv
    cases v <;> simp_all [PyVal.isStr, format_contact_name]
  · decide
  · intro s h
    rcases eq_or_ne s "" with hs | hs
    · rw [hs]; decide
    · have : ¬ (pySplit ",," s).length ≥ 2 := by omega
      simp [format_contact_name, hs, this]
  · intro s fst lst h hemp
    rcases eq_or_ne s "" with hs | hs
    · rw [hs]; decide
    · rcases hemp with he | he <;> simp [format_contact_name, hs, h, he]

/-- Claim C3 witness: the general theorem applied to concrete inputs. -/
theorem claim_C3_witness :
    format_contact_name (PyVal.str " Jane ,, Doe ") = PyVal.str "DoeJ" ∧
    format_contact_name (PyVal.int 42) = PyVal.int 42 ∧
    format_contact_name (PyVal.str "NoSeparator") = PyVal.str "NoSeparator" := by
  refine ⟨?_, ?_, ?_⟩
  · have h := claim_C3.1 " Jane ,, Doe " " Jane " " Doe "
      (by decide) (by decide) (by decide)
    rw [h]; decide
  · exact claim_C3.2.1 (PyVal.int 42) (by decide)
  · exact claim_C3.2.2.2.1 "NoSeparator" (by decide)

/-- Claim C8.  For every list of discovered files, the files whose load
failed are excluded and the combined result equals the combination of the
successfully loaded files alone: a bad file never aborts the run. -/
theorem claim_C8 (files : List (Option DataFrame)) (out : Option String) :
    combine_csvs_by_columns files out =
      combine_csvs_by_columns ((files.filterMap id).map some) out := by
  have h : allData files = allData ((files.filterMap id).map some) :=
    combineLoop_filterMap files DataFrame.empty false
  simp [combine_csvs_by_columns, h]

/-- Claim C5 counterexample.  The claim asserts that every supplied
criterion is applied as a case-insensitive substring containment test.
The code hands the criterion to pandas str.contains, which treats it as a
regular expression: the organism criterion "h.t" keeps the row whose
organism is "hat" (the dot matches any character), whereas the substring
test of the claim discards it, because "h.t" is not a substring of
"hat". -/
theorem claim_C5_counterexample :
    applyFilters ⟨["organism"], [[PyVal.str "hat"]]⟩ "h.t" "" "" =
      .ok ⟨["organism"], [[PyVal.str "hat"]]⟩ ∧
    substringFilterSpec ⟨["organism"], [[PyVal.str "hat"]]⟩ "h.t" "" "" =
      ⟨["organism"], []⟩ := by
  exact ⟨rfl, rfl⟩

/-- Claim C5 amended.  Each supplied non-empty criterion is applied as a
case-insensitive regular-expression search (pandas str.contains with its
default regex=True) against its named column — organism,
sample_library_strategy, sample_name respectively — the criteria combine
conjunctively, and an empty criterion is a no-op; for criteria free of
regex metacharacters the search coincides with substring containment (shown
here for the modelled literal-and-dot fragment), and in particular the
filter string "mouse" matches the organism value "House Mouse". -/
theorem claim_C5_amended :
    (∀ (df : DataFrame) (o a t : String) (d3 : DataFrame),
        applyFilters df o a t = .ok d3 →
        d3.cols = df.cols ∧
          d3.rows = df.rows.filter (rowPasses df.cols o a t)) ∧
    cellMatches "mouse" (PyVal.str "House Mouse") = true ∧
    (∀ pat hay : String, (∀ ch ∈ pat.data, ch ≠ '.') →
        cellMatches pat (PyVal.str hay) = ciSubstrTest hay pat) := by
  refine ⟨applyFilters_ok, by decide, ?_⟩
  intro pat hay hdot
  unfold cellMatches ciSubstrTest reSearch
  apply any_congr
  intro x _
  apply reMatchHere_eq_isPrefixOf
  intro ch hch
  simp only [pyLower, List.mem_map] at hch
  obtain ⟨c, hc, hcc⟩ := hch
  exact hcc ▸ pyLowerChar_ne_dot c (hdot c hc)

/-- Claim C5 witness: the amended theorem applied to a concrete table and
the organism criterion "mouse". -/
theorem claim_C5_witness :
    (["organism"] : List String) = ["organism"] ∧
    ([[PyVal.str "House Mouse"]] : List (List PyVal)) =
      [[PyVal.str "House Mouse"], [PyVal.str "fly"]].filter
        (rowPasses ["organism"] "mouse" "" "") :=
  claim_C5_amended.1
    ⟨["organism"], [[PyVal.str "House Mouse"], [PyVal.str "fly"]]⟩
    "mouse" "" "" ⟨["organism"], [[PyVal.str "House Mouse"]]⟩ rfl

/-- Claim C6.  For every non-empty filter criterion, a row whose value in
the filtered column is null (NaN) never survives that filter: na=False
turns the null into a non-match, so absence never matches. -/
theorem claim_C6 :
    (∀ (df : DataFrame) (o a t : String) (d3 : DataFrame) (r : List PyVal),
        o ≠ "" → applyFilters df o a t = .ok d3 →
        valueAt df.cols r "organism" = PyVal.nan → r ∉ d3.rows) ∧
    (∀ (df : DataFrame) (o a t : String) (d3 : DataFrame) (r : List PyVal),
        a ≠ "" → applyFilters df o a t = .ok d3 →
        valueAt df.cols r "sample_library_strategy" = PyVal.nan →
        r ∉ d3.rows) ∧
    (∀ (df : DataFrame) (o a t : String) (d3 : DataFrame) (r : List PyVal),
        t ≠ "" → applyFilters df o a t = .ok d3 →
        valueAt df.cols r "sample_name" = PyVal.nan → r ∉ d3.rows) := by
  refine ⟨?_, ?_, ?_⟩ <;>
  · intro df o a t d3 r hne hok hnan hr
    obtain ⟨-, hrows⟩ := applyFilters_ok df o a t d3 hok
    rw [hrows] at hr
    have hp := (List.mem_filter.mp hr).2
    unfold rowPasses at hp
    rw [hnan] at hp
    simp [cellMatches, hne] at hp

/-- Claim C6 witness: the row with a null organism is absent from the
result of filtering by the organism criterion "mouse". -/
theorem claim_C6_witness :
    [PyVal.nan] ∉ ([[PyVal.str "House Mouse"]] : List (List PyVal)) :=
  claim_C6.1 ⟨["organism"], [[PyVal.nan], [PyVal.str "House Mouse"]]⟩
    "mouse" "" "" ⟨["organism"], [[PyVal.str "House Mouse"]]⟩ [PyVal.nan]
    (by decide) rfl (by decide)

/-- Claim C7.  The filter block operates on a copy (the embedding is pure,
so the combined frame is never mutated) and when it completes, the
filtered frame has exactly the column order of the combined frame and its
rows are a subsequence of the combined rows. -/
theorem claim_C7 (df : DataFrame) (o a t : String) (d3 : DataFrame)
    (h : applyFilters df o a t = .ok d3) :
    d3.cols = df.cols ∧ d3.rows.Sublist df.rows := by
  obtain ⟨hc, hr⟩ := applyFilters_ok df o a t d3 h
  exact ⟨hc, by rw [hr]; exact List.filter_sublist _⟩

/-- Claim C7 witness: concrete filtered table keeps the column order and a
subsequence of the rows. -/
theorem claim_C7_witness :
    (["organism"] : List String) = ["organism"] ∧
    List.Sublist ([[PyVal.str "House Mouse"]] : List (List PyVal))
      [[PyVal.str "House Mouse"], [PyVal.str "fly"]] :=
  claim_C7 ⟨["organism"], [[PyVal.str "House Mouse"], [PyVal.str "fly"]]⟩
    "mouse" "" "" ⟨["organism"], [[PyVal.str "House Mouse"]]⟩ rfl

/-- Claim C9.  If a non-empty organism, assay or target criterion is
supplied but the combined table has no column named organism,
sample_library_strategy or sample_name respectively, the filter block
raises a KeyError naming that column (the `.error` result) instead of
treating every row as non-matching; nothing in the script catches it, and
the filtered CSV is written only after the whole block, so the run aborts
before that write. -/
theorem claim_C9 :
    (∀ (df : DataFrame) (o a t : String), o ≠ "" → "organism" ∉ df.cols →
        applyFilters df o a t = .error "organism") ∧
    (∀ (df : DataFrame) (a t : String), a ≠ "" →
        "sample_library_strategy" ∉ df.cols →
        applyFilters df "" a t = .error "sample_library_strategy") ∧
    (∀ (df : DataFrame) (t : String), t ≠ "" → "sample_name" ∉ df.cols →
        applyFilters df "" "" t = .error "sample_name") := by
  refine ⟨?_, ?_, ?_⟩
  · intro df o a t ho hmem
    have hidx : colIdx df.cols "organism" = none :=
      (colIdx_eq_none df.cols "organism").mpr hmem
    simp [applyFilters, ho, filterByCol, hidx]
  · intro df a t ha hmem
    have hidx : colIdx df.cols "sample_library_strategy" = none :=
      (colIdx_eq_none df.cols "sample_library_strategy").mpr hmem
    simp [applyFilters, ha, filterByCol, hidx]
  · intro df t ht hmem
    have hidx : colIdx df.cols "sample_name" = none :=
      (colIdx_eq_none df.cols "sample_name").mpr hmem
    simp [applyFilters, ht, filterByCol, hidx]

/-- Claim C9 witness: filtering a table lacking the organism column by a
non-empty organism criterion yields the KeyError, not an empty result. -/
theorem claim_C9_witness :
    applyFilters ⟨["sample_name"], [[PyVal.str "x"]]⟩ "mouse" "" "" =
      Except.error "organism" :=
  claim_C9.1 ⟨["sample_name"], [[PyVal.str "x"]]⟩ "mouse" "" ""
    (by decide) (by decide)

/-- Claim C4.  Whenever the combiner returns a frame whose accumulated
columns are exactly sample_name, organism, custom_x and
sample_geo_accession (in any traversal order, without duplicates), the
output column order is sample_geo_accession, sample_name, the two
separators, custom_x, organism: the two priority columns precede custom_x
in the relative order of the priority list, and the trailing organism
column follows custom_x. -/
theorem claim_C4 (files : List (Option DataFrame)) (out : Option String)
    (df : DataFrame)
    (hc : combine_csvs_by_columns files out = some df)
    (hnd : (allData files).1.cols.Nodup)
    (hm : ∀ c : String, c ∈ (allData files).1.cols ↔
      c ∈ (["sample_name", "organism", "custom_x",
            "sample_geo_accession"] : List String)) :
    df.cols = ["sample_geo_accession", "sample_name", "separator_1",
      "separator_2", "custom_x", "organism"] := by
  have hdf := combine_eq_reindex files out df hc
  subst hdf
  exact columnOrder_of_four (allData files).1.cols hnd hm

/-- Claim C4 witness: the theorem applied to one concrete input file with
columns sample_name, organism, custom_x, sample_geo_accession. -/
theorem claim_C4_witness :
    (⟨["sample_geo_accession", "sample_name", "separator_1", "separator_2",
        "custom_x", "organism"],
      [[PyVal.str "GSE1", PyVal.str "s1", PyVal.nan, PyVal.nan, PyVal.int 1,
        PyVal.str "House Mouse"]]⟩ : DataFrame).cols =
      ["sample_geo_accession", "sample_name", "separator_1", "separator_2",
       "custom_x", "organism"] := by
  have hL : (allData [some (⟨["sample_name", "organism", "custom_x",
      "sample_geo_accession"],
      [[PyVal.str "s1", PyVal.str "House Mouse", PyVal.int 1,
        PyVal.str "GSE1"]]⟩ : DataFrame)]).1.cols =
      ["sample_name", "organism", "custom_x", "sample_geo_accession"] := by
    decide
  exact claim_C4
    [some ⟨["sample_name", "organism", "custom_x", "sample_geo_accession"],
      [[PyVal.str "s1", PyVal.str "House Mouse", PyVal.int 1,
        PyVal.str "GSE1"]]⟩] none
    ⟨["sample_geo_accession", "sample_name", "separator_1", "separator_2",
      "custom_x", "organism"],
      [[PyVal.str "GSE1", PyVal.str "s1", PyVal.nan, PyVal.nan, PyVal.int 1,
        PyVal.str "House Mouse"]]⟩
    (by decide) (by rw [hL]; decide) (by intro c; rw [hL])

/-- Claim C10 counterexample.  The claim asserts that on every run each
row holds null in both separator columns.  An input file that itself has a
column named separator_1 refutes it: the literal separator label then
collides with the data column, the reindex duplicates the label, and the
row keeps its data value in the first separator_1 column. -/
theorem claim_C10_counterexample :
    combine_csvs_by_columns [some ⟨["separator_1"], [[PyVal.str "x"]]⟩]
        none =
      some ⟨["separator_1", "separator_2", "separator_1"],
        [[PyVal.str "x", PyVal.nan, PyVal.str "x"]]⟩ ∧
    valueAt ["separator_1", "separator_2", "separator_1"]
        [PyVal.str "x", PyVal.nan, PyVal.str "x"] "separator_1" ≠
      PyVal.nan := by
  constructor <;> decide

/-- Claim C10 amended.  On every run whose input files contribute no column
literally named separator_1 or separator_2 (true of all GEO metadata
files), and including the run on zero matching files with an output path
given, the final column order is the leading-priority group immediately
followed by the two literal separator columns, then the remaining and
trailing groups, and every row holds null in both separator columns. -/
theorem claim_C10_amended (files : List (Option DataFrame))
    (out : Option String) (df : DataFrame)
    (hc : combine_csvs_by_columns files out = some df)
    (h1 : "separator_1" ∉ (allData files).1.cols)
    (h2 : "separator_2" ∉ (allData files).1.cols) :
    df.cols =
      (first_columns_set.filter
          (fun c => (allData files).1.cols.contains c)) ++
        ["separator_1", "separator_2"] ++
        ((allData files).1.cols.filter (fun c =>
          !(first_columns_set.contains c) &&
            !(middle_columns_set.contains c))) ++
        (middle_columns_set.filter
          (fun c => (allData files).1.cols.contains c)) ∧
    ∀ r ∈ df.rows, valueAt df.cols r "separator_1" = PyVal.nan ∧
      valueAt df.cols r "separator_2" = PyVal.nan := by
  have hdf := combine_eq_reindex files out df hc
  subst hdf
  refine ⟨rfl, ?_⟩
  intro r hr
  simp only [DataFrame.reindex, List.mem_map] at hr
  obtain ⟨row0, hrow0, hproj⟩ := hr
  subst hproj
  constructor
  · rw [show (DataFrame.reindex (allData files).1
        (columnOrder (allData files).1.cols)).cols =
        columnOrder (allData files).1.cols from rfl]
    rw [valueAt_projectRow _ _ _ _ (by simp [columnOrder])]
    unfold valueAt
    rw [(colIdx_eq_none _ _).mpr h1]
  · rw [show (DataFrame.reindex (allData files).1
        (columnOrder (allData files).1.cols)).cols =
        columnOrder (allData files).1.cols from rfl]
    rw [valueAt_projectRow _ _ _ _ (by simp [columnOrder])]
    unfold valueAt
    rw [(colIdx_eq_none _ _).mpr h2]

/-- Claim C10 witness: the amended theorem applied to one concrete input
file without separator-named columns. -/
theorem claim_C10_witness :
    valueAt ["separator_1", "separator_2", "custom", "organism"]
        [PyVal.nan, PyVal.nan, PyVal.int 1, PyVal.str "Mouse"]
        "separator_1" = PyVal.nan ∧
    valueAt ["separator_1", "separator_2", "custom", "organism"]
        [PyVal.nan, PyVal.nan, PyVal.int 1, PyVal.str "Mouse"]
        "separator_2" = PyVal.nan :=
  (claim_C10_amended
    [some ⟨["organism", "custom"], [[PyVal.str "Mouse", PyVal.int 1]]⟩]
    (some "combined_raw_data.csv")
    ⟨["separator_1", "separator_2", "custom", "organism"],
      [[PyVal.nan, PyVal.nan, PyVal.int 1, PyVal.str "Mouse"]]⟩
    (by decide) (by decide) (by decide)).2
    [PyVal.nan, PyVal.nan, PyVal.int 1, PyVal.str "Mouse"] (by decide)
